import Mathlib

/-!
Verification of the Chronosphere MCP server (`server.py`) against its
natural-language specification.

The embedding models the two tools `query_logs` and `query_metrics` as pure
functions from their arguments, the ambient credential, the current instant
(microseconds since the Unix epoch, UTC) and the remote service's behaviour to
a result (`Except QueryError _`) together with the list of HTTP requests
issued, in order.  Python exceptions become `QueryError` constructors named
after the spec's error taxonomy; `datetime` instants become `Int` microsecond
counts; `strftime`/`strptime` become executable rendering and parsing
functions over the proleptic Gregorian calendar.
-/

namespace Chronosphere

/-- The spec's error taxonomy.  In the source every constructor is a distinct
`raise` site: `invalidFormat` and `unsupportedUnit` are the two `ValueError`s
of `parse_simple_time_range`, `malformedTimestamp` is `strptime`'s
`ValueError`, `configurationError` is the missing-token `ValueError`,
`httpError` is `requests.raise_for_status`, `submissionError` is the missing
`query_id` `ValueError`, and `pollTimeout` is the final `TimeoutError`. -/
inductive QueryError where
  | invalidFormat
  | unsupportedUnit
  | malformedTimestamp
  | configurationError
  | httpError
  | submissionError
  | pollTimeout
  deriving DecidableEq, Repr

instance {ε α : Type} [DecidableEq ε] [DecidableEq α] : DecidableEq (Except ε α) := fun x y =>
  match x, y with
  | .ok a, .ok b => if h : a = b then .isTrue (by rw [h]) else .isFalse (by simp [h])
  | .error a, .error b => if h : a = b then .isTrue (by rw [h]) else .isFalse (by simp [h])
  | .ok _, .error _ => .isFalse (by simp)
  | .error _, .ok _ => .isFalse (by simp)

/-- One `requests.get(url, params=...)` call: the URL and the query
parameters, in the order the source dict lists them. -/
structure Request where
  url : String
  params : List (String × String)
  deriving DecidableEq, Repr

/-- `DOMAIN = "affirm.chronosphere.io"`. -/
def DOMAIN : String := "affirm.chronosphere.io"

/-- `start_url` of the logs query (line 78 of the source). -/
def start_url : String := "https://" ++ DOMAIN ++ "/api/unstable/data/logs:list-start"

/-- `poll_url` of the logs query (line 95 of the source). -/
def poll_url : String := "https://" ++ DOMAIN ++ "/api/unstable/data/logs:list-poll"

/-- The metrics query URL (line 137 of the source). -/
def metrics_url : String := "https://" ++ DOMAIN ++ "/data/metrics/api/v1/query"

/-! ## Time formatting: `strftime("%Y-%m-%dT%H:%M:%S.000Z")` -/

/-- Zero-pad a number to two digits, as `strftime` does for `%m %d %H %M %S`. -/
def pad2 (n : Nat) : String :=
  if n < 10 then "0" ++ toString n else toString n

/-- Zero-pad a year to four digits (`%Y`). -/
def pad4 (n : Int) : String :=
  if n < 0 then toString n
  else if n < 10 then "000" ++ toString n
  else if n < 100 then "00" ++ toString n
  else if n < 1000 then "0" ++ toString n
  else toString n

/-- Days since 1970-01-01 to a proleptic-Gregorian civil date
`(year, month, day)` (Howard Hinnant's `civil_from_days` algorithm, the
standard model of what `datetime` prints). -/
def civilFromDays (z : Int) : Int × Nat × Nat :=
  let z' := z + 719468
  let era := Int.fdiv z' 146097
  let doe := (Int.fmod z' 146097).toNat
  let yoe := (doe - doe / 1460 + doe / 36524 - doe / 146096) / 365
  let y := (yoe : Int) + era * 400
  let doy := doe - (365 * yoe + yoe / 4 - yoe / 100)
  let mp := (5 * doy + 2) / 153
  let d := doy - (153 * mp + 2) / 5 + 1
  let m := if mp < 10 then mp + 3 else mp - 9
  (if m ≤ 2 then y + 1 else y, m, d)

/-- Render a civil date-time in the Chronosphere format
`YYYY-MM-DDTHH:MM:SS.000Z`: the sub-second part is the literal `000`,
whatever the instant's microseconds were. -/
def renderZeroMs (y : Int) (mo d h mi s : Nat) : String :=
  pad4 y ++ "-" ++ pad2 mo ++ "-" ++ pad2 d ++ "T" ++
    pad2 h ++ ":" ++ pad2 mi ++ ":" ++ pad2 s ++ ".000Z"

/-- `datetime.strftime("%Y-%m-%dT%H:%M:%S.000Z")` on the instant `t`
(microseconds since the epoch, UTC): truncate to whole seconds, convert to a
civil date-time, print with a fixed `.000Z` suffix. -/
def strftime000 (t : Int) : String :=
  let secs := Int.fdiv t 1000000
  let days := Int.fdiv secs 86400
  let sod := (Int.fmod secs 86400).toNat
  let c := civilFromDays days
  renderZeroMs c.1 c.2.1 c.2.2 (sod / 3600) (sod % 3600 / 60) (sod % 60)

/-! ## `parse_simple_time_range` -/

/-- The numeric value of a nonempty string of decimal digits (`int(...)`). -/
def digitsToNat (l : List Char) : Nat :=
  l.foldl (fun a c => a * 10 + (c.toNat - 48)) 0

/-- Python `str.strip()`: drop whitespace from both ends. -/
def stripChars (l : List Char) : List Char :=
  ((l.dropWhile Char.isWhitespace).reverse.dropWhile Char.isWhitespace).reverse

/-- `re.match(r"(\d+)([mhdwy])", s.strip())`: `re.match` anchors at the start
only, so the match succeeds on any string whose stripped form begins with
digits followed by one of `m h d w y`; trailing characters are ignored.
Returns the numeric value and the unit character. -/
def matchSimple (s : String) : Option (Nat × Char) :=
  let t := stripChars s.toList
  let ds := t.takeWhile Char.isDigit
  let rest := t.dropWhile Char.isDigit
  if ds.isEmpty then none
  else
    match rest with
    | [] => none
    | c :: _ =>
      if c = 'm' ∨ c = 'h' ∨ c = 'd' ∨ c = 'w' ∨ c = 'y' then
        some (digitsToNat ds, c)
      else none

/-- The `if unit == 'm' ... elif ... else raise` chain of
`parse_simple_time_range`, as the duration of one unit in microseconds;
`none` is the `Unsupported time unit` branch (reachable only for `y`). -/
def unitMicros (u : Char) : Option Int :=
  if u = 'm' then some 60000000
  else if u = 'h' then some 3600000000
  else if u = 'd' then some 86400000000
  else if u = 'w' then some 604800000000
  else none

/-- `parse_simple_time_range` (lines 20-41 of the source): match the token,
compute `start = now - value * unit`, `end = now`, and format both with the
zeroed-millisecond `strftime`. -/
def parse_simple_time_range (now : Int) (simple_time_range : String) :
    Except QueryError (String × String) :=
  match matchSimple simple_time_range with
  | none => .error .invalidFormat
  | some (value, unit) =>
    match unitMicros unit with
    | none => .error .unsupportedUnit
    | some d => .ok (strftime000 (now - (value : Int) * d), strftime000 now)

/-! ## `strptime("%Y-%m-%dT%H:%M:%S.%fZ")` -/

/-- A parsed `datetime` value: the fields `strptime` produces. -/
structure Timestamp where
  year : Nat
  month : Nat
  day : Nat
  hour : Nat
  minute : Nat
  second : Nat
  micros : Nat
  deriving DecidableEq, Repr

/-- Gregorian leap year (what `datetime` uses to validate the day). -/
def isLeap (y : Nat) : Bool :=
  (y % 4 == 0 && y % 100 != 0) || y % 400 == 0

/-- Days in a month of a given year. -/
def daysInMonth (y m : Nat) : Nat :=
  if m = 2 then (if isLeap y then 29 else 28)
  else if m = 4 ∨ m = 6 ∨ m = 9 ∨ m = 11 then 30
  else 31

/-- The numeric value of a digit character. -/
def digitVal (c : Char) : Nat := c.toNat - 48

/-- Consume one expected literal character. -/
def expectChar (c : Char) : List Char → Option (List Char)
  | a :: rest => if a = c then some rest else none
  | [] => none

/-- Consume a one-or-two-digit field as `strptime`'s directives do: a
two-digit form is taken when its value satisfies `valid2`, otherwise a single
digit satisfying `valid1` (matching CPython's regex alternations such as
`1[0-2]|0[1-9]|[1-9]` for `%m`; because every field is followed by a
non-digit literal, greedy matching with this one fallback is exact). -/
def read2or1 (valid2 valid1 : Nat → Bool) : List Char → Option (Nat × List Char)
  | a :: b :: rest =>
    if a.isDigit ∧ b.isDigit ∧ valid2 (10 * digitVal a + digitVal b) then
      some (10 * digitVal a + digitVal b, rest)
    else if a.isDigit ∧ valid1 (digitVal a) then some (digitVal a, b :: rest)
    else none
  | [a] => if a.isDigit ∧ valid1 (digitVal a) then some (digitVal a, []) else none
  | [] => none

/-- `%Y`: exactly four digits. -/
def readYear : List Char → Option (Nat × List Char)
  | a :: b :: c :: d :: rest =>
    if a.isDigit ∧ b.isDigit ∧ c.isDigit ∧ d.isDigit then
      some (digitsToNat [a, b, c, d], rest)
    else none
  | _ => none

/-- `%f`: one to six digits, right-padded with zeros to microseconds
(`"5"` means 500000). -/
def readFraction (l : List Char) : Option (Nat × List Char) :=
  let ds := (l.takeWhile Char.isDigit).take 6
  if ds.isEmpty then none
  else some (digitsToNat ds * 10 ^ (6 - ds.length), l.drop ds.length)

/-- `datetime.strptime(s, "%Y-%m-%dT%H:%M:%S.%fZ")` (lines 68-69 of the
source): parse each directive in order, require the whole string to be
consumed, then apply `datetime`'s own range validation (year ≥ 1,
day within the month, second ≤ 59 although the `%S` regex itself admits
60-61).  `none` is the `ValueError` the caller sees. -/
def parseTimestamp (s : String) : Option Timestamp := do
  let (y, r0) ← readYear s.toList
  let r1 ← expectChar '-' r0
  let (mo, r2) ← read2or1 (fun n => 1 ≤ n && n ≤ 12) (fun n => 1 ≤ n) r1
  let r3 ← expectChar '-' r2
  let (d, r4) ← read2or1 (fun n => 1 ≤ n && n ≤ 31) (fun n => 1 ≤ n) r3
  let r5 ← expectChar 'T' r4
  let (h, r6) ← read2or1 (fun n => n ≤ 23) (fun _ => true) r5
  let r7 ← expectChar ':' r6
  let (mi, r8) ← read2or1 (fun n => n ≤ 59) (fun _ => true) r7
  let r9 ← expectChar ':' r8
  let (se, r10) ← read2or1 (fun n => n ≤ 61) (fun _ => true) r9
  let r11 ← expectChar '.' r10
  let (us, r12) ← readFraction r11
  let r13 ← expectChar 'Z' r12
  if r13.isEmpty ∧ 1 ≤ y ∧ se ≤ 59 ∧ d ≤ daysInMonth y mo then
    some ⟨y, mo, d, h, mi, se, us⟩
  else none

/-- `strftime("%Y-%m-%dT%H:%M:%S.000Z")` on a parsed `datetime` value: the
microseconds are not printed, the sub-second part is the literal `000`. -/
def renderTs (t : Timestamp) : String :=
  renderZeroMs (t.year : Int) t.month t.day t.hour t.minute t.second

/-! ## `query_logs` -/

/-- Lines 63-71 of the source: if `simple_time_range` is truthy (non-empty)
resolve the range from it, else `strptime` then reformat the two explicit
timestamps. -/
def resolveTimeRange (now : Int) (start_time end_time simple_time_range : String) :
    Except QueryError (String × String) :=
  if simple_time_range ≠ "" then
    parse_simple_time_range now simple_time_range
  else
    match parseTimestamp start_time with
    | none => .error .malformedTimestamp
    | some fs =>
      match parseTimestamp end_time with
      | none => .error .malformedTimestamp
      | some fe => .ok (renderTs fs, renderTs fe)

/-- `if not API_TOKEN` — Python falsiness of the credential: the environment
variable is unset, or set to the empty string. -/
def tokenFalsy : Option String → Bool
  | none => true
  | some s => s = ""

/-- The JSON body of the `list-start` response: HTTP success flag
(`raise_for_status`), optional `query_id`, optional `refresh_interval_ms`. -/
structure StartResp where
  httpOk : Bool
  query_id : Option String
  refresh_interval_ms : Option Int
  deriving DecidableEq, Repr

/-- The JSON body of one `list-poll` response: HTTP success flag, the
optional `is_finished` field, and the rest of the body (returned verbatim to
the caller), abstracted as an opaque payload string. -/
structure PollResp where
  httpOk : Bool
  is_finished : Option Bool
  payload : String
  deriving DecidableEq, Repr

/-- The remote logs service: the `list-start` response as a function of the
start parameters, and the `list-poll` response as a function of the
`query_id` and the (0-based) attempt number. -/
structure LogsRemote where
  start : List (String × String) → StartResp
  poll : String → Nat → PollResp

/-- The `start_params` dict (lines 79-84 of the source), in source order. -/
def startParams (query st en : String) : List (String × String) :=
  [("log_filter.query", query),
   ("log_filter.happened_after", st),
   ("log_filter.happened_before", en),
   ("timestamp_sort", "DESC")]

/-- `max_poll_attempts = 10`. -/
def max_poll_attempts : Nat := 10

/-- The poll loop (lines 98-107 of the source), with the requests it issues:
at attempt `i` with `fuel` attempts left, issue one poll request; raise on a
non-success status; return the body if `is_finished == True`; otherwise sleep
and continue.  Exhausted fuel is the `TimeoutError`. -/
def pollLoop (remote : LogsRemote) (qid : String) :
    Nat → Nat → Except QueryError PollResp × List Request
  | _, 0 => (.error .pollTimeout, [])
  | i, fuel + 1 =>
    let req : Request := ⟨poll_url, [("query_id", qid)]⟩
    let r := remote.poll qid i
    if r.httpOk = false then (.error .httpError, [req])
    else if r.is_finished = some true then (.ok r, [req])
    else
      let rest := pollLoop remote qid (i + 1) fuel
      (rest.1, req :: rest.2)

/-- `query_logs` (lines 51-107 of the source): resolve the time range
(before the credential check, as the source does), check the credential,
issue the `list-start` request, extract `query_id` (falsy → `ValueError`),
then run the bounded poll loop.  Returns the result and the full ordered
list of HTTP requests issued. -/
def query_logs (token : Option String) (now : Int)
    (query start_time end_time simple_time_range : String)
    (remote : LogsRemote) : Except QueryError PollResp × List Request :=
  match resolveTimeRange now start_time end_time simple_time_range with
  | .error e => (.error e, [])
  | .ok (st, en) =>
    if tokenFalsy token then (.error .configurationError, [])
    else
      let params := startParams query st en
      let sreq : Request := ⟨start_url, params⟩
      let sresp := remote.start params
      if sresp.httpOk = false then (.error .httpError, [sreq])
      else
        let qid := sresp.query_id.getD ""
        if qid = "" then (.error .submissionError, [sreq])
        else
          let rest := pollLoop remote qid 0 max_poll_attempts
          (rest.1, sreq :: rest.2)

/-! ## `query_metrics` -/

/-- The JSON body of the metrics response. -/
structure MetricsResp where
  httpOk : Bool
  body : String
  deriving DecidableEq, Repr

/-- The remote metrics service: the response as a function of the `query`
parameter sent. -/
structure MetricsRemote where
  respond : String → MetricsResp

/-- Lines 140-144 of the source: the query expression as a pure function of
the arguments.  `type == "http"` interpolates environment, mode, namespace
and interval into the HTTP-handler template (service and method are unused);
`type == "rpc"` interpolates all five; anything else leaves `query = ""`. -/
def metricsQueryString (type namespace_ environment mode service method interval : String) :
    String :=
  if type = "http" then
    "sum(increase(http_server_handled_total\x7benvironment='" ++ environment ++
      "', mode=~'" ++ mode ++ "', namespace=~'" ++ namespace_ ++
      "', path!~'/ping|None'\x7d[" ++ interval ++
      "])) by (namespace, handler_package, handler, method, path)"
  else if type = "rpc" then
    "sum(increase(rpc2_server_handled_total\x7benvironment=~'" ++ environment ++
      "', mode=~'" ++ mode ++ "', namespace=~'" ++ namespace_ ++
      "', rpc2_service=~'" ++ service ++ "', rpc2_method=~'" ++ method ++
      "'\x7d[" ++ interval ++ "])) by (rpc2_service, rpc2_method, namespace)"
  else ""

/-- `query_metrics` (lines 109-148 of the source): check the credential,
build the query expression, issue the single GET, propagate a non-success
status, else return the body.  Returns the result and the list of HTTP
requests issued. -/
def query_metrics (token : Option String)
    (type namespace_ environment mode service method interval : String)
    (remote : MetricsRemote) : Except QueryError String × List Request :=
  if tokenFalsy token then (.error .configurationError, [])
  else
    let q := metricsQueryString type namespace_ environment mode service method interval
    let resp := remote.respond q
    if resp.httpOk = false then (.error .httpError, [⟨metrics_url, [("query", q)]⟩])
    else (.ok resp.body, [⟨metrics_url, [("query", q)]⟩])

/-! ## Helper lemmas -/

/-- Subtracting a whole number of seconds shifts the truncated-to-seconds
value by exactly that number. -/
theorem fdiv_shift (a k : Int) :
    Int.fdiv (a - k * 1000000) 1000000 = Int.fdiv a 1000000 - k := by
  rw [Int.fdiv_eq_ediv _ (by norm_num), Int.fdiv_eq_ediv _ (by norm_num)]
  have h : a - k * 1000000 = a + (-k) * 1000000 := by ring
  rw [h, Int.add_mul_ediv_right _ _ (by norm_num)]
  ring

/-- Every formatted timestamp ends in the literal `.000Z`. -/
theorem strftime000_suffix (t : Int) : ∃ p, strftime000 t = p ++ ".000Z" :=
  ⟨_, rfl⟩

/-! ## C2 -/

/-- C2: for every token that matches as `(value, unit)` with a supported unit
of duration `d` microseconds, `parse_simple_time_range` returns the pair
`(strftime(now - value * d), strftime(now))`; at millisecond precision the
two instants the strings denote differ by exactly `value * (d / 1000)`
milliseconds, and both strings end in `.000Z`. -/
theorem parse_simple_time_range_valid (now : Int) (s : String) (v : Nat) (u : Char) (d : Int)
    (hm : matchSimple s = some (v, u)) (hd : unitMicros u = some d) :
    parse_simple_time_range now s =
      .ok (strftime000 (now - (v : Int) * d), strftime000 now) ∧
    Int.fdiv now 1000000 * 1000 - Int.fdiv (now - (v : Int) * d) 1000000 * 1000
      = (v : Int) * (d / 1000) ∧
    (∃ p, strftime000 (now - (v : Int) * d) = p ++ ".000Z") ∧
    (∃ p, strftime000 now = p ++ ".000Z") := by
  refine ⟨?_, ?_, strftime000_suffix _, strftime000_suffix _⟩
  · unfold parse_simple_time_range
    rw [hm]
    dsimp only
    rw [hd]
  · unfold unitMicros at hd
    split_ifs at hd with h1 h2 h3 h4 <;> injection hd with hd <;> subst hd
    · have h : now - (v : Int) * 60000000 = now - ((v : Int) * 60) * 1000000 := by ring
      rw [h, fdiv_shift]; ring_nf
    · have h : now - (v : Int) * 3600000000 = now - ((v : Int) * 3600) * 1000000 := by ring
      rw [h, fdiv_shift]; ring_nf
    · have h : now - (v : Int) * 86400000000 = now - ((v : Int) * 86400) * 1000000 := by ring
      rw [h, fdiv_shift]; ring_nf
    · have h : now - (v : Int) * 604800000000 = now - ((v : Int) * 604800) * 1000000 := by ring
      rw [h, fdiv_shift]; ring_nf

/-- Witness for C2 at `now = 2025-05-08T18:28:35.123456Z` and token `30m`. -/
theorem parse_simple_time_range_valid_witness :
    parse_simple_time_range 1746728915123456 "30m" =
      .ok ("2025-05-08T17:58:35.000Z", "2025-05-08T18:28:35.000Z") ∧
    (∃ p, strftime000 1746728915123456 = p ++ ".000Z") := by
  have h := parse_simple_time_range_valid 1746728915123456 "30m" 30 'm' 60000000
    (by decide) (by decide)
  refine ⟨?_, h.2.2.2⟩
  rw [h.1]; decide

/-! ## C3 -/

/-- C3 counterexample: the source regex `(\d+)([mhdwy])` is used with
`re.match`, which anchors at the start only.  The token `"10mx"` does not
match the claim's anchored pattern `(\d+)([mhdwy])` followed by end of
string, so the claim requires `InvalidFormat`; the code instead accepts it
as ten minutes and returns a range. -/
theorem unanchored_token_counterexample :
    parse_simple_time_range 1746728915123456 "10mx" =
      .ok ("2025-05-08T18:18:35.000Z", "2025-05-08T18:28:35.000Z") := by
  decide

/-- C3 amended: `parse_simple_time_range` raises `InvalidFormat` iff the
stripped token has no prefix of the form digits-then-unit (the match is
unanchored at the end, so trailing characters after the unit are ignored),
and raises `UnsupportedUnit` whenever the matched unit is `y`. -/
theorem parse_simple_time_range_error_cases (now : Int) (s : String) :
    (parse_simple_time_range now s = .error .invalidFormat ↔ matchSimple s = none) ∧
    (∀ v : Nat, matchSimple s = some (v, 'y') →
      parse_simple_time_range now s = .error .unsupportedUnit) := by
  constructor
  · cases hm : matchSimple s with
    | none => simp [parse_simple_time_range, hm]
    | some p =>
      obtain ⟨v, u⟩ := p
      simp only [parse_simple_time_range, hm]
      cases hd : unitMicros u <;> simp
  · intro v hm
    simp [parse_simple_time_range, hm, unitMicros]

/-- Witness for C3 at the token `5y`: matched by the pattern, rejected by the
unit branches. -/
theorem parse_simple_time_range_error_cases_witness :
    parse_simple_time_range 0 "5y" = .error .unsupportedUnit :=
  (parse_simple_time_range_error_cases 0 "5y").2 5 (by decide)

/-! ## C4 -/

/-- C4: on the explicit-range path (empty `simple_time_range`), both
caller-supplied timestamps are parsed with
`strptime("%Y-%m-%dT%H:%M:%S.%fZ")` and reformatted with the
zeroed-millisecond `strftime`; a parse failure of either one (the start
being checked first) is the `MalformedTimestamp` error, and every reformatted
timestamp ends in `.000Z`. -/
theorem explicit_range_normalized (now : Int) (st en : String) :
    (∀ fs, parseTimestamp st = some fs → ∀ fe, parseTimestamp en = some fe →
      resolveTimeRange now st en "" = .ok (renderTs fs, renderTs fe)) ∧
    (parseTimestamp st = none →
      resolveTimeRange now st en "" = .error .malformedTimestamp) ∧
    (parseTimestamp en = none →
      resolveTimeRange now st en "" = .error .malformedTimestamp) ∧
    (∀ fs, ∃ p, renderTs fs = p ++ ".000Z") := by
  refine ⟨?_, ?_, ?_, fun fs => ⟨_, rfl⟩⟩
  · intro fs hs fe he
    simp [resolveTimeRange, hs, he]
  · intro hs
    simp [resolveTimeRange, hs]
  · intro he
    cases hs : parseTimestamp st <;> simp [resolveTimeRange, hs, he]

/-- Witness for C4: the spec's example, `"2025-05-08T18:08:35.123456Z"`
normalizes to `"2025-05-08T18:08:35.000Z"`. -/
theorem explicit_range_normalized_witness :
    resolveTimeRange 0 "2025-05-08T18:08:35.123456Z" "2025-05-08T18:20:35.654321Z" "" =
      .ok ("2025-05-08T18:08:35.000Z", "2025-05-08T18:20:35.000Z") := by
  have h := (explicit_range_normalized 0 "2025-05-08T18:08:35.123456Z"
    "2025-05-08T18:20:35.654321Z").1 ⟨2025, 5, 8, 18, 8, 35, 123456⟩ (by decide)
    ⟨2025, 5, 8, 18, 20, 35, 654321⟩ (by decide)
  rw [h]; decide

/-! ## C5 -/

/-- C5: when `simple_time_range` is non-empty the whole behaviour of
`query_logs` — result and every request issued — is independent of the
caller-supplied `start_time`/`end_time`, and the range used is exactly
`parse_simple_time_range`'s. -/
theorem simple_range_overrides (token : Option String) (now : Int)
    (q st1 en1 st2 en2 simple : String) (remote : LogsRemote)
    (h : simple ≠ "") :
    query_logs token now q st1 en1 simple remote =
      query_logs token now q st2 en2 simple remote ∧
    resolveTimeRange now st1 en1 simple = parse_simple_time_range now simple := by
  have hr : ∀ a b : String, resolveTimeRange now a b simple =
      parse_simple_time_range now simple := by
    intro a b
    unfold resolveTimeRange
    rw [if_pos h]
  exact ⟨by unfold query_logs; rw [hr st1 en1, hr st2 en2], hr st1 en1⟩

/-- Witness for C5: with the token `1h` present, two calls whose explicit
timestamps differ (one pair not even well-formed) behave identically. -/
theorem simple_range_overrides_witness :
    query_logs (some "t") 1746728915123456 "q" "garbage" "2025-05-08T18:20:35.000000Z" "1h"
        ⟨fun _ => ⟨true, some "id1", some 1000⟩, fun _ _ => ⟨true, some true, "body"⟩⟩ =
      query_logs (some "t") 1746728915123456 "q" "2025-05-08T18:08:35.123456Z" "other" "1h"
        ⟨fun _ => ⟨true, some "id1", some 1000⟩, fun _ _ => ⟨true, some true, "body"⟩⟩ :=
  (simple_range_overrides (some "t") 1746728915123456 "q" "garbage"
    "2025-05-08T18:20:35.000000Z" "2025-05-08T18:08:35.123456Z" "other" "1h"
    ⟨fun _ => ⟨true, some "id1", some 1000⟩, fun _ _ => ⟨true, some true, "body"⟩⟩
    (by decide)).1

/-! ## C6 -/

/-- C6: when the start response carries no `query_id` (or a falsy empty one),
`query_logs` fails with the submission error and the only request ever issued
is the start request — no poll request is made. -/
theorem missing_query_id_no_poll (token : Option String) (now : Int)
    (q st en simple a b : String) (remote : LogsRemote)
    (hres : resolveTimeRange now st en simple = .ok (a, b))
    (htok : tokenFalsy token = false)
    (hhttp : (remote.start (startParams q a b)).httpOk = true)
    (hqid : (remote.start (startParams q a b)).query_id.getD "" = "") :
    query_logs token now q st en simple remote =
      (.error .submissionError, [⟨start_url, startParams q a b⟩]) := by
  unfold query_logs
  rw [hres]
  simp [htok, hhttp, hqid]

/-- Witness for C6: a start response with `query_id` absent. -/
theorem missing_query_id_no_poll_witness :
    query_logs (some "t") 0 "q" "2025-05-08T18:08:35.123456Z" "2025-05-08T18:20:35.000000Z" ""
        ⟨fun _ => ⟨true, none, some 1000⟩, fun _ _ => ⟨true, some true, "body"⟩⟩ =
      (.error .submissionError,
        [⟨start_url, startParams "q" "2025-05-08T18:08:35.000Z" "2025-05-08T18:20:35.000Z"⟩]) :=
  missing_query_id_no_poll (some "t") 0 "q" "2025-05-08T18:08:35.123456Z"
    "2025-05-08T18:20:35.000000Z" "" "2025-05-08T18:08:35.000Z" "2025-05-08T18:20:35.000Z"
    ⟨fun _ => ⟨true, none, some 1000⟩, fun _ _ => ⟨true, some true, "body"⟩⟩
    (by decide) (by decide) (by decide) (by decide)

/-! ## C7 -/

/-- C7 counterexample: with the credential unset, a call to `query_logs`
whose `simple_time_range` is malformed raises the time-range validation
error, not `ConfigurationError` — the source checks the token only after
resolving the time range — so not every credential-less call raises
`ConfigurationError`.  (No network request is issued either way.) -/
theorem missing_token_validation_error_counterexample :
    query_logs none 0 "q" "x" "y" "abc"
        ⟨fun _ => ⟨true, some "id1", none⟩, fun _ _ => ⟨true, some true, "body"⟩⟩ =
      (.error .invalidFormat, []) ∧
    QueryError.invalidFormat ≠ QueryError.configurationError := by
  exact ⟨by decide, by decide⟩

/-- C7 amended: with the credential missing (or empty), no call of either
tool ever issues a network request; `query_metrics` always fails with
`ConfigurationError`, and `query_logs` fails with `ConfigurationError`
whenever its time-range arguments are valid (otherwise with the earlier
time-range error). -/
theorem missing_token_no_network (token : Option String) (now : Int)
    (q st en simple ty ns env mode svc meth itv : String)
    (lremote : LogsRemote) (mremote : MetricsRemote)
    (h : tokenFalsy token = true) :
    query_metrics token ty ns env mode svc meth itv mremote =
      (.error .configurationError, []) ∧
    (query_logs token now q st en simple lremote).2 = [] ∧
    (∃ e, (query_logs token now q st en simple lremote).1 = .error e) ∧
    (∀ a b, resolveTimeRange now st en simple = .ok (a, b) →
      query_logs token now q st en simple lremote = (.error .configurationError, [])) := by
  refine ⟨by simp [query_metrics, h], ?_, ?_, ?_⟩
  · unfold query_logs
    cases hr : resolveTimeRange now st en simple with
    | error e => rfl
    | ok p => obtain ⟨a, b⟩ := p; simp [h]
  · unfold query_logs
    cases hr : resolveTimeRange now st en simple with
    | error e => exact ⟨e, rfl⟩
    | ok p => obtain ⟨a, b⟩ := p; exact ⟨.configurationError, by simp [h]⟩
  · intro a b hr
    unfold query_logs
    rw [hr]
    simp [h]

/-- Witness for C7 (amended) with the variable unset and valid arguments. -/
theorem missing_token_no_network_witness :
    query_metrics none "http" "ns" "env" "live" "svc" "meth" "5m" ⟨fun q => ⟨true, q⟩⟩ =
      (.error .configurationError, []) ∧
    query_logs none 0 "q" "2025-05-08T18:08:35.123456Z" "2025-05-08T18:20:35.000000Z" ""
        ⟨fun _ => ⟨true, some "id1", none⟩, fun _ _ => ⟨true, some true, "body"⟩⟩ =
      (.error .configurationError, []) := by
  have h := missing_token_no_network none 0 "q" "2025-05-08T18:08:35.123456Z"
    "2025-05-08T18:20:35.000000Z" "" "http" "ns" "env" "live" "svc" "meth" "5m"
    ⟨fun _ => ⟨true, some "id1", none⟩, fun _ _ => ⟨true, some true, "body"⟩⟩
    ⟨fun q => ⟨true, q⟩⟩ (by decide)
  exact ⟨h.1, h.2.2.2 "2025-05-08T18:08:35.000Z" "2025-05-08T18:20:35.000Z" (by decide)⟩

/-! ## C8 -/

/-- C8: the metrics query expression is the pure function
`metricsQueryString` of the arguments; with a credential present, the single
request issued always carries it (even when it is empty); `"http"` produces
exactly the fixed HTTP-handler template with environment, mode, namespace and
interval interpolated, `"rpc"` exactly the fixed RPC template, and every
other type produces the empty query string, which is still sent — no
validation rejects unknown types. -/
theorem query_metrics_templates (token : Option String)
    (ty ns env mode svc meth itv : String) (remote : MetricsRemote)
    (h : tokenFalsy token = false) :
    (query_metrics token ty ns env mode svc meth itv remote).2 =
      [⟨metrics_url, [("query", metricsQueryString ty ns env mode svc meth itv)]⟩] ∧
    (ty ≠ "http" → ty ≠ "rpc" → metricsQueryString ty ns env mode svc meth itv = "") ∧
    metricsQueryString "http" ns env mode svc meth itv =
      "sum(increase(http_server_handled_total\x7benvironment='" ++ env ++
        "', mode=~'" ++ mode ++ "', namespace=~'" ++ ns ++
        "', path!~'/ping|None'\x7d[" ++ itv ++
        "])) by (namespace, handler_package, handler, method, path)" ∧
    metricsQueryString "rpc" ns env mode svc meth itv =
      "sum(increase(rpc2_server_handled_total\x7benvironment=~'" ++ env ++
        "', mode=~'" ++ mode ++ "', namespace=~'" ++ ns ++
        "', rpc2_service=~'" ++ svc ++ "', rpc2_method=~'" ++ meth ++
        "'\x7d[" ++ itv ++ "])) by (rpc2_service, rpc2_method, namespace)" := by
  refine ⟨?_, ?_, by simp [metricsQueryString], by simp [metricsQueryString]⟩
  · simp only [query_metrics, h, Bool.false_eq_true, if_false]
    split <;> rfl
  · intro h1 h2
    simp [metricsQueryString, h1, h2]

/-- Witness for C8: an unknown type sends the empty query string. -/
theorem query_metrics_templates_witness :
    (query_metrics (some "t") "bogus" "ns" "env" "live" "svc" "meth" "5m"
        ⟨fun q => ⟨true, q⟩⟩).2 = [⟨metrics_url, [("query", "")]⟩] := by
  have h := query_metrics_templates (some "t") "bogus" "ns" "env" "live" "svc" "meth" "5m"
    ⟨fun q => ⟨true, q⟩⟩ (by decide)
  rw [h.1, h.2.1 (by decide) (by decide)]

/-! ## C10 -/

/-- C10: two `query_metrics` calls with `type = "http"` that differ only in
`service` and `method` are indistinguishable — same result and the same
single issued request (URL and query parameter string) — because the HTTP
template never interpolates them. -/
theorem query_metrics_http_service_method_independent (token : Option String)
    (ns env mode itv s1 m1 s2 m2 : String) (remote : MetricsRemote) :
    query_metrics token "http" ns env mode s1 m1 itv remote =
      query_metrics token "http" ns env mode s2 m2 itv remote := by
  unfold query_metrics metricsQueryString
  simp

/-! ## Poll-loop lemmas -/

/-- The poll loop issues at most `fuel` requests. -/
theorem pollLoop_length (remote : LogsRemote) (qid : String) :
    ∀ fuel i, (pollLoop remote qid i fuel).2.length ≤ fuel := by
  intro fuel
  induction fuel with
  | zero => intro i; simp [pollLoop]
  | succ n ih =>
    intro i
    unfold pollLoop
    dsimp only
    split
    · simp
    · split
      · simp
      · simpa using Nat.succ_le_succ (ih (i + 1))

/-- Every request the poll loop issues is the poll request for `qid`. -/
theorem pollLoop_requests_shape (remote : LogsRemote) (qid : String) :
    ∀ fuel i r, r ∈ (pollLoop remote qid i fuel).2 →
      r = ⟨poll_url, [("query_id", qid)]⟩ := by
  intro fuel
  induction fuel with
  | zero => intro i r hr; simp [pollLoop] at hr
  | succ n ih =>
    intro i r hr
    unfold pollLoop at hr
    dsimp only at hr
    split at hr
    · simpa using hr
    · split at hr
      · simpa using hr
      · rcases (List.mem_cons).1 hr with h | h
        · exact h
        · exact ih (i + 1) r h

/-- If no poll body up to the fuel bound reports completion (and every poll
succeeds at the HTTP level), the loop exhausts its fuel: timeout, with
exactly `fuel` poll requests issued. -/
theorem pollLoop_timeout (remote : LogsRemote) (qid : String) :
    ∀ fuel i,
      (∀ j, i ≤ j → j < i + fuel → (remote.poll qid j).httpOk = true) →
      (∀ j, i ≤ j → j < i + fuel → (remote.poll qid j).is_finished ≠ some true) →
      pollLoop remote qid i fuel =
        (.error .pollTimeout, List.replicate fuel ⟨poll_url, [("query_id", qid)]⟩) := by
  intro fuel
  induction fuel with
  | zero => intro i _ _; rfl
  | succ n ih =>
    intro i hok hnf
    have h1 : (remote.poll qid i).httpOk = true := hok i (le_refl i) (by omega)
    have h2 : (remote.poll qid i).is_finished ≠ some true := hnf i (le_refl i) (by omega)
    unfold pollLoop
    dsimp only
    rw [h1, if_neg (by simp), if_neg h2,
      ih (i + 1) (fun j hj1 hj2 => hok j (by omega) (by omega))
        (fun j hj1 hj2 => hnf j (by omega) (by omega))]
    simp [List.replicate_succ]

/-- If attempt `k` (0-based, within the fuel) is the first whose body reports
completion, the loop returns that body after exactly `k + 1` poll
requests. -/
theorem pollLoop_finds (remote : LogsRemote) (qid : String) :
    ∀ k fuel i, k < fuel →
      (∀ j, j ≤ k → (remote.poll qid (i + j)).httpOk = true) →
      (∀ j, j < k → (remote.poll qid (i + j)).is_finished ≠ some true) →
      (remote.poll qid (i + k)).is_finished = some true →
      pollLoop remote qid i fuel =
        (.ok (remote.poll qid (i + k)),
          List.replicate (k + 1) ⟨poll_url, [("query_id", qid)]⟩) := by
  intro k
  induction k with
  | zero =>
    intro fuel i hk hok hnf hfin
    match fuel, hk with
    | f + 1, _ =>
      have h1 : (remote.poll qid i).httpOk = true := by simpa using hok 0 (le_refl 0)
      have h2 : (remote.poll qid i).is_finished = some true := by simpa using hfin
      unfold pollLoop
      dsimp only
      rw [h1, if_neg (by simp), if_pos h2]
      simp
  | succ m ih =>
    intro fuel i hk hok hnf hfin
    match fuel, hk with
    | f + 1, _ =>
      have h1 : (remote.poll qid i).httpOk = true := by simpa using hok 0 (by omega)
      have h2 : (remote.poll qid i).is_finished ≠ some true := by simpa using hnf 0 (by omega)
      have hok' : ∀ j, j ≤ m → (remote.poll qid (i + 1 + j)).httpOk = true := by
        intro j hj
        have h := hok (j + 1) (by omega)
        rwa [show i + (j + 1) = i + 1 + j by omega] at h
      have hnf' : ∀ j, j < m → (remote.poll qid (i + 1 + j)).is_finished ≠ some true := by
        intro j hj
        have h := hnf (j + 1) (by omega)
        rwa [show i + (j + 1) = i + 1 + j by omega] at h
      have hfin' : (remote.poll qid (i + 1 + m)).is_finished = some true := by
        rwa [show i + (m + 1) = i + 1 + m by omega] at hfin
      have hlt : m < f := by omega
      unfold pollLoop
      dsimp only
      rw [h1, if_neg (by simp), if_neg h2, ih f (i + 1) hlt hok' hnf' hfin']
      rw [show i + 1 + m = i + (m + 1) by omega]
      simp [List.replicate_succ]

/-! ## C1 -/

/-- C1: once `query_logs` reaches the poll phase (valid time range, token
present, start response successful with a non-falsy `query_id`, polls
HTTP-successful), it issues at most `max_poll_attempts = 10` poll requests;
if no body within the 10 attempts has `is_finished == true` it fails with the
poll timeout after exactly 10 polls, and if attempt `k < 10` is the first
finished body it returns that body verbatim after exactly `k + 1` polls. -/
theorem query_logs_poll_bounded (token : Option String) (now : Int)
    (q st en simple a b qid : String) (remote : LogsRemote)
    (hres : resolveTimeRange now st en simple = .ok (a, b))
    (htok : tokenFalsy token = false)
    (hhttp : (remote.start (startParams q a b)).httpOk = true)
    (hqid : (remote.start (startParams q a b)).query_id.getD "" = qid)
    (hq : qid ≠ "")
    (hpollok : ∀ k, k < max_poll_attempts → (remote.poll qid k).httpOk = true) :
    (query_logs token now q st en simple remote).2.length ≤ 1 + max_poll_attempts ∧
    ((∀ k, k < max_poll_attempts → (remote.poll qid k).is_finished ≠ some true) →
      query_logs token now q st en simple remote =
        (.error .pollTimeout,
          ⟨start_url, startParams q a b⟩ ::
            List.replicate max_poll_attempts ⟨poll_url, [("query_id", qid)]⟩)) ∧
    (∀ k, k < max_poll_attempts → (remote.poll qid k).is_finished = some true →
      (∀ j, j < k → (remote.poll qid j).is_finished ≠ some true) →
      query_logs token now q st en simple remote =
        (.ok (remote.poll qid k),
          ⟨start_url, startParams q a b⟩ ::
            List.replicate (k + 1) ⟨poll_url, [("query_id", qid)]⟩)) := by
  have hql : query_logs token now q st en simple remote =
      ((pollLoop remote qid 0 max_poll_attempts).1,
        ⟨start_url, startParams q a b⟩ :: (pollLoop remote qid 0 max_poll_attempts).2) := by
    unfold query_logs
    rw [hres]
    dsimp only
    rw [htok, if_neg (by simp), hhttp, if_neg (by simp), hqid, if_neg hq]
  refine ⟨?_, ?_, ?_⟩
  · rw [hql]
    have h := pollLoop_length remote qid max_poll_attempts 0
    simp only [List.length_cons]
    omega
  · intro hnf
    rw [hql, pollLoop_timeout remote qid max_poll_attempts 0
      (fun j _ hj => hpollok j (by omega)) (fun j _ hj => hnf j (by omega))]
  · intro k hk hfin hbefore
    have h := pollLoop_finds remote qid k max_poll_attempts 0 hk
      (fun j hj => by simpa using hpollok j (by omega))
      (fun j hj => by simpa using hbefore j hj)
      (by simpa using hfin)
    rw [hql, h]
    simp

/-- Witness for C1: a remote whose poll bodies report completion from the
third attempt (index 2) on — the call returns that body after exactly three
poll requests. -/
theorem query_logs_poll_bounded_witness :
    query_logs (some "t") 0 "q" "2025-05-08T18:08:35.123456Z" "2025-05-08T18:20:35.000000Z" ""
        ⟨fun _ => ⟨true, some "id1", some 1000⟩,
         fun _ k => ⟨true, some (decide (2 ≤ k)), "body"⟩⟩ =
      (.ok ⟨true, some true, "body"⟩,
        ⟨start_url, startParams "q" "2025-05-08T18:08:35.000Z" "2025-05-08T18:20:35.000Z"⟩ ::
          List.replicate 3 ⟨poll_url, [("query_id", "id1")]⟩) := by
  have h := (query_logs_poll_bounded (some "t") 0 "q" "2025-05-08T18:08:35.123456Z"
    "2025-05-08T18:20:35.000000Z" "" "2025-05-08T18:08:35.000Z" "2025-05-08T18:20:35.000Z" "id1"
    ⟨fun _ => ⟨true, some "id1", some 1000⟩,
     fun _ k => ⟨true, some (decide (2 ≤ k)), "body"⟩⟩
    (by decide) (by decide) (by decide) (by decide) (by decide)
    (by decide)).2.2 2 (by decide) (by decide) (by decide)
  rw [h]
  decide

/-! ## C9 -/

/-- C9 counterexample: at a concrete successful call, the complete request
trace of `query_logs` is the start request carrying exactly the four
parameters `log_filter.query`, `log_filter.happened_after`,
`log_filter.happened_before` and `timestamp_sort` (no pagination token — the
function has no `page_token` argument to forward), followed by one poll
request. -/
theorem no_page_token_counterexample :
    (query_logs (some "t") 0 "q" "2025-05-08T18:08:35.123456Z" "2025-05-08T18:20:35.000000Z" ""
        ⟨fun _ => ⟨true, some "id1", some 1000⟩, fun _ _ => ⟨true, some true, "body"⟩⟩).2 =
      [⟨start_url, [("log_filter.query", "q"),
                    ("log_filter.happened_after", "2025-05-08T18:08:35.000Z"),
                    ("log_filter.happened_before", "2025-05-08T18:20:35.000Z"),
                    ("timestamp_sort", "DESC")]⟩,
       ⟨poll_url, [("query_id", "id1")]⟩] := by
  decide

/-- C9 amended: whenever `query_logs` gets past validation, the first request
issued is the start request whose parameters are exactly the query text, the
resolved range and the fixed descending timestamp sort — nothing else, in
particular no pagination token — and every later request is a poll request
whose only parameter is the `query_id`. -/
theorem start_request_exact (token : Option String) (now : Int)
    (q st en simple a b : String) (remote : LogsRemote)
    (hres : resolveTimeRange now st en simple = .ok (a, b))
    (htok : tokenFalsy token = false) :
    ∃ rest, (query_logs token now q st en simple remote).2 =
      ⟨start_url, [("log_filter.query", q),
                   ("log_filter.happened_after", a),
                   ("log_filter.happened_before", b),
                   ("timestamp_sort", "DESC")]⟩ :: rest ∧
      ∀ r ∈ rest,
        r = ⟨poll_url, [("query_id", (remote.start (startParams q a b)).query_id.getD "")]⟩ := by
  unfold query_logs
  rw [hres]
  dsimp only
  rw [htok, if_neg (by simp)]
  by_cases hh : (remote.start (startParams q a b)).httpOk = false
  · rw [if_pos hh]
    exact ⟨[], rfl, by simp⟩
  · rw [if_neg hh]
    by_cases hq : (remote.start (startParams q a b)).query_id.getD "" = ""
    · rw [if_pos hq]
      exact ⟨[], rfl, by simp⟩
    · rw [if_neg hq]
      refine ⟨(pollLoop remote ((remote.start (startParams q a b)).query_id.getD "") 0
        max_poll_attempts).2, rfl, ?_⟩
      intro r hr
      exact pollLoop_requests_shape remote _ max_poll_attempts 0 r hr

/-- Witness for C9 (amended) at a concrete call. -/
theorem start_request_exact_witness :
    ∃ rest, (query_logs (some "t") 1746728915123456 "q" "A" "B" "1h"
        ⟨fun _ => ⟨true, some "id1", some 1000⟩, fun _ _ => ⟨true, some false, "body"⟩⟩).2 =
      ⟨start_url, [("log_filter.query", "q"),
                   ("log_filter.happened_after", "2025-05-08T17:28:35.000Z"),
                   ("log_filter.happened_before", "2025-05-08T18:28:35.000Z"),
                   ("timestamp_sort", "DESC")]⟩ :: rest ∧
      ∀ r ∈ rest, r = ⟨poll_url, [("query_id", "id1")]⟩ := by
  have h := start_request_exact (some "t") 1746728915123456 "q" "A" "B" "1h"
    "2025-05-08T17:28:35.000Z" "2025-05-08T18:28:35.000Z"
    ⟨fun _ => ⟨true, some "id1", some 1000⟩, fun _ _ => ⟨true, some false, "body"⟩⟩
    (by decide) (by decide)
  simpa using h

end Chronosphere
